import Mathlib

/-!
Shallow embedding of src/scraper.py (OpenArtScraper) and proofs about it.

The program is single-threaded browser scripting: a scroll-and-collect loop
over a listing page, a per-URL download worker that polls the download
directory and renames the completed file, a merger that globs the renamed
files into one list, and an orchestrator with try/except/finally teardown.
Browser and filesystem observations are modelled as explicit environments;
wall-clock sleeps are irrelevant to the functional behaviour and are dropped;
the while loops are fueled.
-/

namespace WorkflowScraper

/-- The CONFIG dictionary (src/scraper.py lines 21-29). The time-valued
fields and the headless flag do not influence the functional model but are
kept for completeness. -/
structure Config where
  base_url : String
  target_count : Nat
  download_folder : String
  merged_file : String
  scroll_pause : Nat
  page_load_timeout : Nat
  headless : Bool

/-- The hardcoded configuration values of this version. -/
def CONFIG : Config :=
  { base_url := "https://openart.ai/workflows/all"
  , target_count := 2000
  , download_folder := "./workflows"
  , merged_file := "./workflows_merged.json"
  , scroll_pause := 2
  , page_load_timeout := 30
  , headless := false }

/-- Python str.endswith as a test on the character sequence. -/
def strEndsWith (s pat : String) : Bool :=
  pat.data.isSuffixOf s.data

/-- Helper for substring containment on character lists. -/
def strContainsAux (pat : List Char) : List Char → Bool
  | [] => pat.isEmpty
  | c :: rest => pat.isPrefixOf (c :: rest) || strContainsAux pat rest

/-- Python substring containment (pat in s) on the character sequence. -/
def strContains (s pat : String) : Bool :=
  strContainsAux pat.data s.data

/-- State of the scroll-and-collect loop (lines 85-87 and the set/counter it
updates): the accumulated URL set as an insertion-ordered duplicate-free
list, the last observed page height, the consecutive no-new-content counter,
and the iteration index. -/
structure ScrollState where
  urls : List String
  lastHeight : Nat
  noNew : Nat
  k : Nat
deriving Repr, DecidableEq

/-- Environment of one collection run: what the browser reports at each loop
iteration. finds k lists, for each anchor element found at iteration k, the
value of its href attribute (none models a stale element or an absent
attribute, both skipped, lines 100-106); findFails k models an exception
while locating the elements (line 110, logged and skipped); heights k is the
page height observed after the k-th scroll (line 118); initialHeight the
height read before the loop (line 85). -/
structure ScrollEnv where
  finds : Nat → List (Option String)
  findFails : Nat → Bool
  heights : Nat → Nat
  initialHeight : Nat

/-- Lines 100-104: examine one anchor element and add its href to the
accumulated set when it passes every filter: truthy, contains /workflows/,
not already present, not the base URL, not ending in /workflows/all. -/
def addUrl (base : String) (urls : List String) (href : Option String) : List String :=
  match href with
  | none => urls
  | some url =>
    if url ≠ "" ∧ strContains url "/workflows/" = true ∧ url ∉ urls ∧
        url ≠ base ∧ strEndsWith url "/workflows/all" = false then
      urls ++ [url]
    else urls

/-- Lines 98-106: fold over the anchor elements of the current page. -/
def collectStep (base : String) (urls : List String) (obs : List (Option String)) :
    List String :=
  obs.foldl (addUrl base) urls

/-- The URL set after the collect phase of iteration k (lines 91-111): an
exception while finding elements leaves the set unchanged. -/
def scrollCollected (base : String) (env : ScrollEnv) (s : ScrollState) : List String :=
  if env.findFails s.k then s.urls else collectStep base s.urls (env.finds s.k)

/-- One iteration body of the while loop (lines 91-126): collect, scroll,
compare heights; returns the new state and whether the loop breaks
(no_new_content_count reached max_no_new_attempts = 5, lines 119-123). -/
def scrollBody (base : String) (env : ScrollEnv) (s : ScrollState) : ScrollState × Bool :=
  if env.heights s.k = s.lastHeight then
    ({ urls := scrollCollected base env s, lastHeight := s.lastHeight,
       noNew := s.noNew + 1, k := s.k + 1 }, decide (5 ≤ s.noNew + 1))
  else
    ({ urls := scrollCollected base env s, lastHeight := env.heights s.k,
       noNew := 0, k := s.k + 1 }, false)

/-- The while loop of lines 89-126, fueled: none means the loop has not
finished within the given number of iterations. -/
def scrollLoop (base : String) (target : Nat) (env : ScrollEnv) :
    Nat → ScrollState → Option ScrollState
  | 0, _ => none
  | fuel + 1, s =>
    if target ≤ s.urls.length then some s
    else
      let p := scrollBody base env s
      if p.2 then some p.1 else scrollLoop base target env fuel p.1

/-- Initial state of the collection loop (lines 85-87, with the empty URL
set from the constructor, line 49). -/
def initScroll (env : ScrollEnv) : ScrollState :=
  { urls := [], lastHeight := env.initialHeight, noNew := 0, k := 0 }

/-- Iterating the loop body with termination tests ignored; used to reason
about runs that have not yet stopped. -/
def scrollAdv (base : String) (env : ScrollEnv) : Nat → ScrollState → ScrollState
  | 0, s => s
  | m + 1, s => scrollAdv base env m (scrollBody base env s).1

/-- The six XPATH fallback selectors for the download control, in order
(lines 145-152). -/
def selectors : List String :=
  [ "//button[contains(text(), \x27Download\x27)]"
  , "//button[contains(text(), \x27download\x27)]"
  , "//a[contains(text(), \x27Download\x27)]"
  , "//button[contains(@class, \x27download\x27)]"
  , "//a[contains(@href, \x27.json\x27)]"
  , "//button[.//span[contains(text(), \x27Download\x27)]]" ]

/-- The in-memory run counters of the scraper object (lines 50-51). -/
structure RunState where
  downloaded_count : Nat
  failed_downloads : List String
deriving Repr, DecidableEq

/-- Environment of one download_workflow call. pageLoads: driver.get and the
WebDriverWait succeed, otherwise a TimeoutException is raised (lines
135-140). findElement sel: whether find_element succeeds on that selector
(lines 154-160). clickFails: the click raises an exception (line 171).
initialFiles: the os.listdir snapshot before the click (line 168). dirAt e:
the os.listdir result at poll step e (line 178); the rename existence test
is read from the same snapshot. renameTime: int(time.time()) at the rename
(line 191). renameFails: os.rename raises (line 193). Exceptions land in the
generic handler of lines 209-212. -/
structure DlEnv where
  pageLoads : Bool
  findElement : String → Bool
  clickFails : Bool
  initialFiles : List String
  dirAt : Nat → List String
  renameTime : Nat
  renameFails : Bool

/-- A partial-download marker: a name ending in .crdownload or .tmp
(line 182). -/
def isPartialFile (f : String) : Bool :=
  strEndsWith f ".crdownload" || strEndsWith f ".tmp"

/-- The set difference current - initial of line 179, as a list filter. -/
def newFiles (current initial : List String) : List String :=
  current.filter (fun f => decide (f ∉ initial))

/-- Line 182: the newly appeared files that are not partial-download
markers. -/
def completedFiles (current initial : List String) : List String :=
  (newFiles current initial).filter (fun f => !isPartialFile f)

/-- The poll loop of lines 175-199 (max_wait = 30, one step per second):
returns the first completed file of the first successful poll, together with
the directory snapshot it was seen in, or none on exhaustion. -/
def pollLoop (env : DlEnv) : Nat → Nat → Option (String × List String)
  | 0, _ => none
  | fuel + 1, elapsed =>
    let current := env.dirAt elapsed
    match completedFiles current env.initialFiles with
    | [] => pollLoop env fuel (elapsed + 1)
    | f :: _ => some (f, current)

/-- The deterministic per-index file name workflow_(index).json (line 187). -/
def indexName (index : Nat) : String :=
  "workflow_" ++ toString index ++ ".json"

/-- The collision fallback name workflow_(index)_(t).json (line 191). -/
def timestampName (index t : Nat) : String :=
  "workflow_" ++ toString index ++ "_" ++ toString t ++ ".json"

/-- Lines 186-193: the destination the rename step chooses, given the
directory contents dir at that moment. Only the index-based name is tested
for existence; the timestamp fallback is used unchecked. -/
def renameDest (dir : List String) (index t : Nat) : String :=
  if indexName index ∈ dir then timestampName index t else indexName index

/-- Result of one download_workflow call: the updated in-memory counters,
the returned boolean, and the filesystem effect of the rename (the
destination name) when one happened. -/
structure DlResult where
  st : RunState
  ok : Bool
  savedAs : Option String
deriving Repr, DecidableEq

/-- The shared shape of every failure exit of download_workflow (lines
164-165, 202-203, 206-208, 210-212): append the URL to failed_downloads and
return False. -/
def recordFailure (st : RunState) (url : String) : DlResult :=
  { st := { st with failed_downloads := st.failed_downloads ++ [url] }
  , ok := false, savedAs := none }

/-- Lines 131-212: navigate, wait for the page, try the selector fallbacks,
click, poll for a completed download, rename it. Every exception path
(page-load timeout, missing button, click failure, poll exhaustion, rename
failure) takes the recordFailure exit. -/
def download_workflow (env : DlEnv) (st : RunState) (url : String) (index : Nat) :
    DlResult :=
  if env.pageLoads = false then recordFailure st url
  else if selectors.any env.findElement = false then recordFailure st url
  else if env.clickFails = true then recordFailure st url
  else
    match pollLoop env 30 0 with
    | none => recordFailure st url
    | some fc =>
      if env.renameFails = true then recordFailure st url
      else
        { st := { st with downloaded_count := st.downloaded_count + 1 }
        , ok := true
        , savedAs := some (renameDest fc.2 index env.renameTime) }

/-- The download phase of run (lines 262-269): one download_workflow call per
collected URL, indexed from 1, threading the counters. -/
def downloadLoop (envs : Nat → DlEnv) : List String → Nat → RunState → RunState
  | [], _, st => st
  | url :: rest, idx, st =>
    downloadLoop envs rest (idx + 1) (download_workflow (envs idx) st url idx).st

/-- Parsed JSON documents, the uninterpreted payload of a workflow file. -/
inductive Json where
  | null : Json
  | bool : Bool → Json
  | num : Int → Json
  | str : String → Json
  | arr : List Json → Json
  | obj : List (String × Json) → Json

/-- One entry of the merged output (lines 227-230). -/
structure MergedRecord where
  filename : String
  workflow : Json

/-- The pathlib glob pattern workflow_*.json on a flat directory (line 219):
a name matches exactly when it starts with workflow_ and ends with .json
(the two parts cannot overlap, since position 8 of a matching name is the
underscore of the literal head while every character of .json differs from
it, so such a name is at least 14 characters long). -/
def matchesGlob (name : String) : Bool :=
  "workflow_".data.isPrefixOf name.data && strEndsWith name ".json"

/-- Line 219: the files the merger enumerates. A directory is modelled as a
list of (filename, parse outcome) pairs, where none stands for content that
json.load rejects; enumeration never looks at the content. -/
def mergeCandidates (dir : List (String × Option Json)) : List (String × Option Json) :=
  dir.filter (fun p => matchesGlob p.1)

/-- The loop of lines 223-232: parse each enumerated file; a parse failure
is logged and the file skipped, a success appends one record. -/
def mergeEntries : List (String × Option Json) → List MergedRecord
  | [] => []
  | (name, some d) :: rest => { filename := name, workflow := d } :: mergeEntries rest
  | (_, none) :: rest => mergeEntries rest

/-- Lines 214-240: glob, parse-and-collect, producing the list that is then
serialized unconditionally to the merged file. -/
def merge_json_files (dir : List (String × Option Json)) : List MergedRecord :=
  mergeEntries (mergeCandidates dir)

/-- How the try block of run ends: normally, by KeyboardInterrupt (line 292)
or by an unexpected exception (line 294). -/
inductive AbortKind where
  | interrupt : AbortKind
  | exception : AbortKind
deriving Repr, DecidableEq

/-- Environment of one run call. setupFails: webdriver.Chrome itself raises,
so self.driver is still None (lines 75, 48). scroll and scrollFuel drive the
collection phase. dlEnvs idx is the environment of the idx-th download.
abort = some (kind, n) models an interruption or unexpected exception
striking during the download phase after n items were processed (before the
merge); none is a normal completion. dirFiles is the download directory as
the merger sees it (filenames with parse outcomes). -/
structure RunEnv where
  setupFails : Bool
  scroll : ScrollEnv
  scrollFuel : Nat
  dlEnvs : Nat → DlEnv
  abort : Option (AbortKind × Nat)
  dirFiles : List (String × Option Json)

/-- Observable outcome of one run call: whether a driver was created, whether
the finally block quit it (lines 296-299), the final counters, and the merged
output when the merge phase ran (some = the artifact was written). -/
structure RunResult where
  driverCreated : Bool
  driverQuit : Bool
  st : RunState
  mergedOutput : Option (List MergedRecord)

/-- The fresh counters of the constructor (lines 50-51). -/
def initRunState : RunState :=
  { downloaded_count := 0, failed_downloads := [] }

/-- Lines 242-299: setup, collect, download loop, merge, inside
try/except/finally. A failing setup leaves self.driver as None, so the
finally block does not quit (driverQuit false). If the collection loop never
finishes, the run never reaches the finally block: the result is none. In
every other case, interrupted or crashed or normal, the finally block quits
the created driver. -/
def run (cfg : Config) (env : RunEnv) : Option RunResult :=
  if env.setupFails = true then
    some { driverCreated := false, driverQuit := false,
           st := initRunState, mergedOutput := none }
  else
    match scrollLoop cfg.base_url cfg.target_count env.scroll env.scrollFuel
        (initScroll env.scroll) with
    | none => none
    | some s =>
      match env.abort with
      | some _abt =>
        some { driverCreated := true, driverQuit := true,
               st := downloadLoop env.dlEnvs (s.urls.take _abt.2) 1 initRunState,
               mergedOutput := none }
      | none =>
        some { driverCreated := true, driverQuit := true,
               st := downloadLoop env.dlEnvs s.urls 1 initRunState,
               mergedOutput := some (merge_json_files env.dirFiles) }

/-- A page whose height never stabilizes and which exposes no links: on it
the collection loop never stops. Used to refute unconditional termination. -/
def divergingScrollEnv : ScrollEnv :=
  { finds := fun _ => [], findFails := fun _ => false,
    heights := fun k => k + 1, initialHeight := 0 }

/-- A page with constant height and no links: the loop stops after five
no-change scrolls. -/
def quietScrollEnv : ScrollEnv :=
  { finds := fun _ => [], findFails := fun _ => false,
    heights := fun _ => 0, initialHeight := 0 }

/-- A page with constant height exposing one workflow link. -/
def oneLinkScrollEnv : ScrollEnv :=
  { finds := fun _ => [some "https://openart.ai/workflows/abc"],
    findFails := fun _ => false, heights := fun _ => 0, initialHeight := 0 }

/-- A download environment in which everything succeeds but the page exposes
no download control. -/
def idleDlEnv : DlEnv :=
  { pageLoads := true, findElement := fun _ => false, clickFails := false,
    initialFiles := [], dirAt := fun _ => [], renameTime := 0,
    renameFails := false }

/-- A download environment whose page load times out. -/
def timeoutDlEnv : DlEnv :=
  { pageLoads := false, findElement := fun _ => false, clickFails := false,
    initialFiles := [], dirAt := fun _ => [], renameTime := 0,
    renameFails := false }

/-- A download environment in which each poll sees only a partial-download
marker. -/
def stalledDlEnv : DlEnv :=
  { pageLoads := true, findElement := fun _ => true, clickFails := false,
    initialFiles := [], dirAt := fun _ => ["x.tmp"], renameTime := 0,
    renameFails := false }

/-- A run environment that completes normally with an empty collection. -/
def emptyRunEnv : RunEnv :=
  { setupFails := false, scroll := quietScrollEnv, scrollFuel := 6,
    dlEnvs := fun _ => idleDlEnv, abort := none, dirFiles := [] }

/-- The result of run CONFIG emptyRunEnv, written out. -/
def emptyRunResult : RunResult :=
  { driverCreated := true, driverQuit := true, st := initRunState,
    mergedOutput := some [] }

/-! ## Claim C1: rename collision handling (lines 186-193) -/

/-- C1, counterexample. The claim says the destination chosen on a collision
is never a path already present in the download directory. But the code only
tests the index-based name for existence: in a directory that already holds
both workflow_1.json and workflow_1_100.json, a rename of index 1 at time
100 targets workflow_1_100.json, a path already present, so the existing
file would be overwritten. -/
theorem rename_collision_counterexample :
    indexName 1 ∈ ["workflow_1.json", "workflow_1_100.json"] ∧
    renameDest ["workflow_1.json", "workflow_1_100.json"] 1 100
      ∈ ["workflow_1.json", "workflow_1_100.json"] := by
  decide

/-- C1, amended. When workflow_(index).json already exists, the rename
destination is the timestamp-suffixed name, which differs from the colliding
target; it is a path not previously present in the directory provided the
timestamp-suffixed name itself is absent, and only under that proviso is no
existing file overwritten. -/
theorem rename_collision_amended (dir : List String) (index t : Nat)
    (hcol : indexName index ∈ dir) (hfree : timestampName index t ∉ dir) :
    renameDest dir index t = timestampName index t ∧
    renameDest dir index t ∉ dir ∧
    renameDest dir index t ≠ indexName index := by
  have h : renameDest dir index t = timestampName index t := by
    simp [renameDest, hcol]
  refine ⟨h, ?_, ?_⟩
  · rw [h]; exact hfree
  · intro he
    have heq : timestampName index t = indexName index := h.symm.trans he
    exact hfree (heq.symm ▸ hcol)

/-- C1, witness for the amended theorem at a concrete directory. -/
theorem rename_collision_amended_witness :
    (indexName 1 ∈ ["workflow_1.json"] ∧ timestampName 1 100 ∉ ["workflow_1.json"]) ∧
    (renameDest ["workflow_1.json"] 1 100 = timestampName 1 100 ∧
     renameDest ["workflow_1.json"] 1 100 ∉ ["workflow_1.json"] ∧
     renameDest ["workflow_1.json"] 1 100 ≠ indexName 1) :=
  ⟨⟨by decide, by decide⟩,
    rename_collision_amended ["workflow_1.json"] 1 100 (by decide) (by decide)⟩

/-! ## Claim C2: merge keeps exactly the parseable files (lines 214-240) -/

/-- The parse-and-collect loop keeps exactly the parseable entries, in
order. -/
theorem mergeEntries_eq_filterMap (l : List (String × Option Json)) :
    mergeEntries l =
      l.filterMap (fun p => Option.map (fun d => MergedRecord.mk p.1 d) p.2) := by
  induction l with
  | nil => rfl
  | cons p rest ih =>
    obtain ⟨name, c⟩ := p
    cases c with
    | none => simpa [mergeEntries] using ih
    | some d => simpa [mergeEntries] using ih

/-- The parse-and-collect loop yields one record per parseable entry. -/
theorem mergeEntries_length (l : List (String × Option Json)) :
    (mergeEntries l).length = (l.filter (fun p => p.2.isSome)).length := by
  induction l with
  | nil => rfl
  | cons p rest ih =>
    obtain ⟨name, c⟩ := p
    cases c with
    | none => simpa [mergeEntries] using ih
    | some d => simpa [mergeEntries] using ih

/-- C2. The merged output has exactly one record (filename, workflow) per
enumerated file that parses, in enumeration order, and no record for a file
that fails to parse; a parse failure never aborts the merge (the function is
total and keeps processing later files). On the concrete directory of the
claim, workflow_1.json parseable and workflow_2.json corrupt, the output is
exactly the one-element list for workflow_1.json. -/
theorem merge_keeps_exactly_parse_successes :
    (∀ dir : List (String × Option Json),
        merge_json_files dir =
          (mergeCandidates dir).filterMap
            (fun p => Option.map (fun d => MergedRecord.mk p.1 d) p.2)) ∧
    (∀ dir : List (String × Option Json),
        (merge_json_files dir).length =
          ((mergeCandidates dir).filter (fun p => p.2.isSome)).length) ∧
    merge_json_files
        [("workflow_1.json", some (Json.obj [("a", Json.num 1)])),
         ("workflow_2.json", none)] =
      [{ filename := "workflow_1.json", workflow := Json.obj [("a", Json.num 1)] }] := by
  refine ⟨?_, ?_, ?_⟩
  · intro dir; exact mergeEntries_eq_filterMap (mergeCandidates dir)
  · intro dir; exact mergeEntries_length (mergeCandidates dir)
  · rfl

/-! ## Claim C10: enumeration is by the glob pattern alone (lines 218-221) -/

/-- C10. The merger enumerates candidates solely by the filename pattern
workflow_*.json: a file is a candidate exactly when it is in the directory
and its name matches, independently of its content and of whether the
current run produced it; a non-matching name is ignored whatever its
content; a matching name is processed wherever it came from. The concrete
names show a leftover timestamp-suffixed file from an earlier run matching,
and unrelated names not matching. -/
theorem merge_enumerates_by_glob :
    (∀ (dir : List (String × Option Json)) (p : String × Option Json),
        p ∈ mergeCandidates dir ↔ p ∈ dir ∧ matchesGlob p.1 = true) ∧
    (∀ (dir : List (String × Option Json)) (name : String) (c : Option Json),
        matchesGlob name = false →
        merge_json_files ((name, c) :: dir) = merge_json_files dir) ∧
    (∀ (dir : List (String × Option Json)) (name : String) (c : Option Json),
        matchesGlob name = true →
        merge_json_files ((name, c) :: dir) =
          mergeEntries ((name, c) :: mergeCandidates dir)) ∧
    (matchesGlob "workflow_3_1700000000.json" = true ∧
     matchesGlob "workflow_7.json" = true ∧
     matchesGlob "notes.txt" = false ∧
     matchesGlob "data.json" = false) := by
  refine ⟨?_, ?_, ?_, by decide⟩
  · intro dir p
    simp [mergeCandidates, List.mem_filter]
  · intro dir name c h
    simp [merge_json_files, mergeCandidates, h]
  · intro dir name c h
    simp [merge_json_files, mergeCandidates, h]

/-- C10, witness: a file whose name does not match the pattern contributes
nothing to the merge, whatever its content. -/
theorem merge_enumerates_by_glob_witness :
    merge_json_files [("notes.txt", some Json.null)] = merge_json_files [] :=
  merge_enumerates_by_glob.2.1 [] "notes.txt" (some Json.null) (by decide)

/-! ## Claim C5: poll selection ignores partial-download markers
(lines 174-199) -/

/-- When a duplicate-free list holds q with property p and everything else
without it, filtering by p leaves exactly q. -/
theorem filter_eq_singleton_of_unique {α : Type} [DecidableEq α] (p : α → Bool) :
    ∀ (l : List α) (q : α), l.Nodup → q ∈ l → p q = true →
      (∀ f ∈ l, f ≠ q → p f = false) → l.filter p = [q] := by
  intro l
  induction l with
  | nil => intro q _ hq; exact absurd hq (List.not_mem_nil q)
  | cons a rest ih =>
    intro q hnd hq hpq hothers
    rcases List.mem_cons.mp hq with rfl | hmem
    · have hrest : rest.filter p = [] := by
        refine List.filter_eq_nil_iff.mpr ?_
        intro f hf
        have hne : f ≠ q := by
          intro hfq; subst hfq
          exact (List.nodup_cons.mp hnd).1 hf
        simp [hothers f (List.mem_cons_of_mem q hf) hne]
      simp [List.filter_cons, hpq, hrest]
    · have hne : a ≠ q := by
        intro haq; subst haq
        exact (List.nodup_cons.mp hnd).1 hmem
      have hpa : p a = false := hothers a (List.mem_cons_self a rest) hne
      have := ih q (List.nodup_cons.mp hnd).2 hmem hpq
        (fun f hf hfq => hothers f (List.mem_cons_of_mem a hf) hfq)
      simp [List.filter_cons, hpa, this]

/-- C5. In a poll where the set of newly appeared files holds one file that
is not a partial-download marker and otherwise only partial markers, the
worker selects exactly the non-partial file as the completed download; and a
poll whose new files are all partial markers selects nothing, so the wait
loop moves on to the next poll. -/
theorem poll_selection_skips_markers :
    (∀ (current initial : List String) (q : String),
        current.Nodup →
        q ∈ newFiles current initial →
        isPartialFile q = false →
        (∀ f ∈ newFiles current initial, f ≠ q → isPartialFile f = true) →
        completedFiles current initial = [q]) ∧
    (∀ (env : DlEnv) (fuel elapsed : Nat),
        (∀ f ∈ newFiles (env.dirAt elapsed) env.initialFiles,
            isPartialFile f = true) →
        pollLoop env (fuel + 1) elapsed = pollLoop env fuel (elapsed + 1)) := by
  constructor
  · intro current initial q hnd hq hqp hothers
    have hndnew : (newFiles current initial).Nodup := List.Nodup.filter _ hnd
    refine filter_eq_singleton_of_unique _ (newFiles current initial) q hndnew hq ?_ ?_
    · simp [hqp]
    · intro f hf hfq
      simp [hothers f hf hfq]
  · intro env fuel elapsed hall
    have hempty : completedFiles (env.dirAt elapsed) env.initialFiles = [] := by
      refine List.filter_eq_nil_iff.mpr ?_
      intro f hf
      simp [hall f hf]
    simp [pollLoop, hempty]

/-- C5, witness at a concrete poll: of the two new files a.json and
b.crdownload only a.json is selected, and a poll seeing only x.tmp selects
nothing and keeps waiting. -/
theorem poll_selection_skips_markers_witness :
    completedFiles ["a.json", "b.crdownload"] [] = ["a.json"] ∧
    pollLoop stalledDlEnv 30 0 = pollLoop stalledDlEnv 29 1 :=
  ⟨poll_selection_skips_markers.1 ["a.json", "b.crdownload"] [] "a.json"
      (by decide) (by decide) (by decide) (by decide),
    poll_selection_skips_markers.2 stalledDlEnv 29 0 (by decide)⟩

/-! ## Claims C9 and C6: per-call outcome dichotomy and error recording
(lines 131-212, 262-263) -/

/-- Every download_workflow call either succeeds, bumping only the download
counter, or fails, appending only the URL; helper shared by the outcome
theorems. -/
theorem download_workflow_outcome (env : DlEnv) (st : RunState) (url : String)
    (index : Nat) :
    ((download_workflow env st url index).ok = true ∧
      (download_workflow env st url index).st =
        { st with downloaded_count := st.downloaded_count + 1 }) ∨
    ((download_workflow env st url index).ok = false ∧
      (download_workflow env st url index).st =
        { st with failed_downloads := st.failed_downloads ++ [url] }) := by
  by_cases h1 : env.pageLoads = false
  · right; simp [download_workflow, h1, recordFailure]
  · by_cases h2 : selectors.any env.findElement = false
    · right; simp [download_workflow, h1, h2, recordFailure]
    · by_cases h3 : env.clickFails = true
      · right; simp [download_workflow, h1, h2, h3, recordFailure]
      · cases hp : pollLoop env 30 0 with
        | none => right; simp [download_workflow, h1, h2, h3, hp, recordFailure]
        | some fc =>
          by_cases h5 : env.renameFails = true
          · right; simp [download_workflow, h1, h2, h3, hp, h5, recordFailure]
          · left; simp [download_workflow, h1, h2, h3, hp, h5]

/-- C9. Every call to download_workflow has exactly one of two outcomes on
the run counters: it returns True, increments downloaded_count by one and
leaves failed_downloads unchanged, or it returns False, appends the URL once
to failed_downloads and leaves downloaded_count unchanged; the two returned
booleans make both-or-neither impossible. -/
theorem download_outcome_dichotomy (env : DlEnv) (st : RunState) (url : String)
    (index : Nat) :
    ((download_workflow env st url index).ok = true ∧
      (download_workflow env st url index).st.downloaded_count =
        st.downloaded_count + 1 ∧
      (download_workflow env st url index).st.failed_downloads =
        st.failed_downloads) ∨
    ((download_workflow env st url index).ok = false ∧
      (download_workflow env st url index).st.downloaded_count =
        st.downloaded_count ∧
      (download_workflow env st url index).st.failed_downloads =
        st.failed_downloads ++ [url]) := by
  rcases download_workflow_outcome env st url index with ⟨hok, hst⟩ | ⟨hok, hst⟩
  · left; rw [hst]; exact ⟨hok, rfl, rfl⟩
  · right; rw [hst]; exact ⟨hok, rfl, rfl⟩

/-- C6. Every error class of a download (page-load timeout, missing
download control, click failure, poll exhaustion, rename failure) is caught
inside the call, which records the URL exactly once in the failure list and
returns False instead of propagating; the download loop of run always
proceeds through the whole URL list, every call settling each URL exactly
once (the counters account for exactly one outcome per URL, so no URL is
retried), and the failures recorded over a run form a sublist of the
processed URLs extending the prior failure list. -/
theorem download_errors_recorded :
    (∀ (env : DlEnv) (st : RunState) (url : String) (index : Nat),
        env.pageLoads = false ∨ selectors.any env.findElement = false ∨
          env.clickFails = true ∨ pollLoop env 30 0 = none ∨
          env.renameFails = true →
        (download_workflow env st url index).ok = false ∧
        (download_workflow env st url index).st.failed_downloads =
          st.failed_downloads ++ [url] ∧
        (download_workflow env st url index).st.downloaded_count =
          st.downloaded_count) ∧
    (∀ (envs : Nat → DlEnv) (urls : List String) (idx : Nat) (st : RunState),
        ∃ fs : List String,
          (downloadLoop envs urls idx st).failed_downloads =
            st.failed_downloads ++ fs ∧
          fs.Sublist urls) ∧
    (∀ (envs : Nat → DlEnv) (urls : List String) (idx : Nat) (st : RunState),
        (downloadLoop envs urls idx st).downloaded_count +
            (downloadLoop envs urls idx st).failed_downloads.length =
          st.downloaded_count + st.failed_downloads.length + urls.length) := by
  refine ⟨?_, ?_, ?_⟩
  · intro env st url index h
    by_cases h1 : env.pageLoads = false
    · simp [download_workflow, h1, recordFailure]
    · by_cases h2 : selectors.any env.findElement = false
      · simp [download_workflow, h1, h2, recordFailure]
      · by_cases h3 : env.clickFails = true
        · simp [download_workflow, h1, h2, h3, recordFailure]
        · cases hp : pollLoop env 30 0 with
          | none => simp [download_workflow, h1, h2, h3, hp, recordFailure]
          | some fc =>
            by_cases h5 : env.renameFails = true
            · simp [download_workflow, h1, h2, h3, hp, h5, recordFailure]
            · rcases h with h | h | h | h | h <;> simp_all
  · intro envs urls
    induction urls with
    | nil =>
      intro idx st
      exact ⟨[], by simp [downloadLoop], List.nil_sublist []⟩
    | cons u rest ih =>
      intro idx st
      rcases download_workflow_outcome (envs idx) st u idx with ⟨_, hst⟩ | ⟨_, hst⟩
      · obtain ⟨fs, hfs, hsub⟩ := ih (idx + 1) (download_workflow (envs idx) st u idx).st
        refine ⟨fs, ?_, hsub.cons u⟩
        simp only [downloadLoop]
        rw [hfs, hst]
      · obtain ⟨fs, hfs, hsub⟩ := ih (idx + 1) (download_workflow (envs idx) st u idx).st
        refine ⟨u :: fs, ?_, hsub.cons₂ u⟩
        simp only [downloadLoop]
        rw [hfs, hst]
        simp
  · intro envs urls
    induction urls with
    | nil =>
      intro idx st
      simp [downloadLoop]
    | cons u rest ih =>
      intro idx st
      have hrec := ih (idx + 1) (download_workflow (envs idx) st u idx).st
      simp only [downloadLoop]
      rw [hrec]
      rcases download_workflow_outcome (envs idx) st u idx with ⟨_, hst⟩ | ⟨_, hst⟩
      · rw [hst]; simp; omega
      · rw [hst]; simp; omega

/-- C6, witness: a page-load timeout on a concrete call is caught and
recorded, and a concrete two-URL loop (both failing) records both URLs in
order while never aborting. -/
theorem download_errors_recorded_witness :
    ((download_workflow timeoutDlEnv initRunState "https://openart.ai/workflows/a" 1).ok
        = false ∧
      (download_workflow timeoutDlEnv initRunState
          "https://openart.ai/workflows/a" 1).st.failed_downloads =
        initRunState.failed_downloads ++ ["https://openart.ai/workflows/a"] ∧
      (download_workflow timeoutDlEnv initRunState
          "https://openart.ai/workflows/a" 1).st.downloaded_count =
        initRunState.downloaded_count) ∧
    (∃ fs : List String,
        (downloadLoop (fun _ => timeoutDlEnv)
            ["https://openart.ai/workflows/a", "https://openart.ai/workflows/b"] 1
            initRunState).failed_downloads =
          initRunState.failed_downloads ++ fs ∧
        fs.Sublist ["https://openart.ai/workflows/a", "https://openart.ai/workflows/b"]) :=
  ⟨download_errors_recorded.1 timeoutDlEnv initRunState
      "https://openart.ai/workflows/a" 1 (Or.inl rfl),
    download_errors_recorded.2.1 (fun _ => timeoutDlEnv)
      ["https://openart.ai/workflows/a", "https://openart.ai/workflows/b"] 1
      initRunState⟩

/-! ## Claim C4: the collected URL set is duplicate-free and excludes the
listing URL (lines 98-129) -/

/-- Adding one observed anchor preserves the collection invariant:
duplicate-free, never the base URL, never a URL ending in /workflows/all. -/
theorem addUrl_invariant (base : String) (urls : List String) (href : Option String)
    (h : urls.Nodup ∧ ∀ u ∈ urls, u ≠ base ∧ strEndsWith u "/workflows/all" = false) :
    (addUrl base urls href).Nodup ∧
      ∀ u ∈ addUrl base urls href,
        u ≠ base ∧ strEndsWith u "/workflows/all" = false := by
  match href with
  | none => exact h
  | some url =>
    by_cases hc : url ≠ "" ∧ strContains url "/workflows/" = true ∧ url ∉ urls ∧
        url ≠ base ∧ strEndsWith url "/workflows/all" = false
    · have heq : addUrl base urls (some url) = urls ++ [url] := by
        simp only [addUrl]
        rw [if_pos hc]
      rw [heq]
      constructor
      · rw [List.nodup_append]
        exact ⟨h.1, List.nodup_singleton url,
          fun a ha hb => hc.2.2.1 (by rwa [List.mem_singleton.mp hb] at ha)⟩
      · intro u hu
        rcases List.mem_append.mp hu with hu | hu
        · exact h.2 u hu
        · rw [List.mem_singleton.mp hu]
          exact ⟨hc.2.2.2.1, hc.2.2.2.2⟩
    · have heq : addUrl base urls (some url) = urls := by
        simp only [addUrl]
        rw [if_neg hc]
      rw [heq]; exact h

/-- Folding the collect step over a page preserves the invariant. -/
theorem collectStep_invariant (base : String) (obs : List (Option String)) :
    ∀ (urls : List String),
      (urls.Nodup ∧ ∀ u ∈ urls, u ≠ base ∧ strEndsWith u "/workflows/all" = false) →
      (collectStep base urls obs).Nodup ∧
        ∀ u ∈ collectStep base urls obs,
          u ≠ base ∧ strEndsWith u "/workflows/all" = false := by
  induction obs with
  | nil => intro urls h; exact h
  | cons o rest ih =>
    intro urls h
    exact ih (addUrl base urls o) (addUrl_invariant base urls o h)

/-- One loop iteration preserves the invariant. -/
theorem scrollBody_invariant (base : String) (env : ScrollEnv) (s : ScrollState)
    (h : s.urls.Nodup ∧ ∀ u ∈ s.urls, u ≠ base ∧ strEndsWith u "/workflows/all" = false) :
    ((scrollBody base env s).1.urls.Nodup ∧
      ∀ u ∈ (scrollBody base env s).1.urls,
        u ≠ base ∧ strEndsWith u "/workflows/all" = false) := by
  have hcoll : (scrollCollected base env s).Nodup ∧
      ∀ u ∈ scrollCollected base env s,
        u ≠ base ∧ strEndsWith u "/workflows/all" = false := by
    unfold scrollCollected
    split
    · exact h
    · exact collectStep_invariant base (env.finds s.k) s.urls h
  unfold scrollBody
  split <;> exact hcoll

/-- The invariant holds of whatever state the loop stops in. -/
theorem scrollLoop_invariant (base : String) (target : Nat) (env : ScrollEnv) :
    ∀ (fuel : Nat) (s sf : ScrollState),
      (s.urls.Nodup ∧ ∀ u ∈ s.urls, u ≠ base ∧ strEndsWith u "/workflows/all" = false) →
      scrollLoop base target env fuel s = some sf →
      sf.urls.Nodup ∧ ∀ u ∈ sf.urls, u ≠ base ∧ strEndsWith u "/workflows/all" = false := by
  intro fuel
  induction fuel with
  | zero => intro s sf _ hloop; exact absurd hloop (by simp [scrollLoop])
  | succ n ih =>
    intro s sf h hloop
    rw [scrollLoop] at hloop
    by_cases hexit : target ≤ s.urls.length
    · rw [if_pos hexit] at hloop
      rw [← Option.some_inj.mp hloop]; exact h
    · rw [if_neg hexit] at hloop
      by_cases hbrk : (scrollBody base env s).2 = true
      · simp only [hbrk, if_pos] at hloop
        rw [← Option.some_inj.mp hloop]
        exact scrollBody_invariant base env s h
      · simp only [hbrk] at hloop
        simp at hloop
        exact ih (scrollBody base env s).1 sf (scrollBody_invariant base env s h) hloop

/-- C4. Whatever final state the collection loop returns, starting from the
empty set, its URL list has no duplicate, contains no URL equal to the
listing URL, and contains no URL ending in /workflows/all. -/
theorem collected_urls_unique_and_filtered (base : String) (target : Nat)
    (env : ScrollEnv) (fuel : Nat) (sf : ScrollState)
    (hloop : scrollLoop base target env fuel (initScroll env) = some sf) :
    sf.urls.Nodup ∧
      ∀ u ∈ sf.urls, u ≠ base ∧ strEndsWith u "/workflows/all" = false :=
  scrollLoop_invariant base target env fuel (initScroll env) sf
    (by constructor <;> simp [initScroll]) hloop

/-- C4, witness: a concrete one-link page collected to completion. -/
theorem collected_urls_unique_and_filtered_witness :
    (⟨["https://openart.ai/workflows/abc"], 0, 1, 1⟩ : ScrollState).urls.Nodup ∧
      ∀ u ∈ (⟨["https://openart.ai/workflows/abc"], 0, 1, 1⟩ : ScrollState).urls,
        u ≠ "https://openart.ai/workflows/all" ∧
          strEndsWith u "/workflows/all" = false :=
  collected_urls_unique_and_filtered "https://openart.ai/workflows/all" 1
    oneLinkScrollEnv 2 ⟨["https://openart.ai/workflows/abc"], 0, 1, 1⟩ (by decide)

/-! ## Claim C3: termination of the collection loop (lines 85-127) -/

/-- On the ever-growing page, a state with empty URL set and height matching
the step index never leaves the loop. -/
theorem divergingScrollEnv_no_exit :
    ∀ (fuel : Nat) (s : ScrollState), s.urls = [] → s.lastHeight = s.k →
      scrollLoop CONFIG.base_url CONFIG.target_count divergingScrollEnv fuel s = none := by
  intro fuel
  induction fuel with
  | zero => intro s _ _; rfl
  | succ n ih =>
    intro s hurls hlast
    rw [scrollLoop]
    have hexit : ¬ CONFIG.target_count ≤ s.urls.length := by
      rw [hurls]; simp [CONFIG]
    rw [if_neg hexit]
    have hh : divergingScrollEnv.heights s.k ≠ s.lastHeight := by
      rw [hlast]; simp [divergingScrollEnv]
    have hbody : scrollBody CONFIG.base_url divergingScrollEnv s =
        ({ urls := scrollCollected CONFIG.base_url divergingScrollEnv s,
           lastHeight := divergingScrollEnv.heights s.k, noNew := 0, k := s.k + 1 },
          false) := by
      unfold scrollBody
      rw [if_neg hh]
    have hcoll : scrollCollected CONFIG.base_url divergingScrollEnv s = s.urls := by
      simp [scrollCollected, divergingScrollEnv, collectStep]
    rw [hbody]
    simp only [if_neg Bool.false_ne_true]
    exact ih _ (by rw [hcoll]; exact hurls) (by simp [divergingScrollEnv])

/-- C3, counterexample. The claim says the collection loop terminates for
every run. On a page whose height grows at every scroll and which exposes no
workflow link, the loop (under the configured base URL and target count)
runs forever: no amount of fuel makes it stop. -/
theorem scroll_termination_counterexample :
    (∃ (fuel : Nat) (sf : ScrollState),
        scrollLoop CONFIG.base_url CONFIG.target_count divergingScrollEnv fuel
            (initScroll divergingScrollEnv) = some sf) = False := by
  apply eq_false
  rintro ⟨fuel, sf, h⟩
  rw [divergingScrollEnv_no_exit fuel (initScroll divergingScrollEnv) rfl rfl] at h
  exact Option.noConfusion h

/-- The loop body always advances the step index by one. -/
theorem scrollBody_k (base : String) (env : ScrollEnv) (s : ScrollState) :
    (scrollBody base env s).1.k = s.k + 1 := by
  unfold scrollBody
  split <;> rfl

/-- The test-free iteration advances the step index by its fuel. -/
theorem scrollAdv_k (base : String) (env : ScrollEnv) :
    ∀ (m : Nat) (s : ScrollState), (scrollAdv base env m s).k = s.k + m := by
  intro m
  induction m with
  | zero => intro s; rfl
  | succ n ih =>
    intro s
    have := ih (scrollBody base env s).1
    rw [scrollAdv, this, scrollBody_k]
    omega

/-- If the loop stops from the state one body-iteration ahead, it stops from
the current state. -/
theorem scrollLoop_stops_of_body (base : String) (target : Nat) (env : ScrollEnv)
    (s : ScrollState)
    (h : ∃ fuel, (scrollLoop base target env fuel (scrollBody base env s).1).isSome = true) :
    ∃ fuel, (scrollLoop base target env fuel s).isSome = true := by
  by_cases hexit : target ≤ s.urls.length
  · exact ⟨1, by rw [scrollLoop, if_pos hexit]; rfl⟩
  · by_cases hbrk : (scrollBody base env s).2 = true
    · refine ⟨1, ?_⟩
      rw [scrollLoop, if_neg hexit]
      simp only [hbrk, if_pos]
      rfl
    · obtain ⟨fuel, hf⟩ := h
      refine ⟨fuel + 1, ?_⟩
      rw [scrollLoop, if_neg hexit]
      simp only [hbrk]
      simpa using hf

/-- If the loop stops from m body-iterations ahead, it stops now. -/
theorem scrollLoop_stops_of_adv (base : String) (target : Nat) (env : ScrollEnv) :
    ∀ (m : Nat) (s : ScrollState),
      (∃ fuel, (scrollLoop base target env fuel (scrollAdv base env m s)).isSome = true) →
      ∃ fuel, (scrollLoop base target env fuel s).isSome = true := by
  intro m
  induction m with
  | zero => intro s h; exact h
  | succ n ih =>
    intro s h
    exact scrollLoop_stops_of_body base target env s (ih (scrollBody base env s).1 h)

/-- Once the remembered height agrees with a height that stays constant
forever after, the loop stops within five more iterations (the no-change
counter can only climb). -/
theorem scrollLoop_stall (base : String) (target : Nat) (env : ScrollEnv) (H : Nat) :
    ∀ (fuel : Nat) (s : ScrollState),
      (∀ j, s.k ≤ j → env.heights j = H) → s.lastHeight = H →
      1 ≤ fuel → 5 ≤ fuel + s.noNew →
      (scrollLoop base target env fuel s).isSome = true := by
  intro fuel
  induction fuel with
  | zero => intro s _ _ h1 _; omega
  | succ n ih =>
    intro s hconst hlast _ h5
    rw [scrollLoop]
    by_cases hexit : target ≤ s.urls.length
    · rw [if_pos hexit]; rfl
    · rw [if_neg hexit]
      have hh : env.heights s.k = s.lastHeight := by
        rw [hlast]; exact hconst s.k (Nat.le_refl s.k)
      have hbody : scrollBody base env s =
          ({ urls := scrollCollected base env s, lastHeight := s.lastHeight,
             noNew := s.noNew + 1, k := s.k + 1 }, decide (5 ≤ s.noNew + 1)) := by
        unfold scrollBody
        rw [if_pos hh]
      rw [hbody]
      by_cases hbrk : 5 ≤ s.noNew + 1
      · have ht : decide (5 ≤ s.noNew + 1) = true := decide_eq_true hbrk
        simp only [ht]
        rw [if_pos trivial]
        rfl
      · have hd : decide (5 ≤ s.noNew + 1) = false := decide_eq_false hbrk
        simp only [hd, if_neg Bool.false_ne_true]
        exact ih _ (fun j hj => hconst j (Nat.le_trans (Nat.le_succ s.k) hj))
          hlast (by omega) (show 5 ≤ n + (s.noNew + 1) by omega)

/-- From any state past which the height is constant, the loop stops. -/
theorem scrollLoop_stops_of_flat (base : String) (target : Nat) (env : ScrollEnv)
    (H : Nat) (s : ScrollState) (hconst : ∀ j, s.k ≤ j → env.heights j = H) :
    ∃ fuel, (scrollLoop base target env fuel s).isSome = true := by
  apply scrollLoop_stops_of_body base target env s
  have hlast : (scrollBody base env s).1.lastHeight = H := by
    unfold scrollBody
    by_cases hh : env.heights s.k = s.lastHeight
    · rw [if_pos hh]
      simp only
      rw [← hh]
      exact hconst s.k (Nat.le_refl s.k)
    · rw [if_neg hh]
      simp only
      exact hconst s.k (Nat.le_refl s.k)
  refine ⟨5, scrollLoop_stall base target env H 5 (scrollBody base env s).1
    (fun j hj => hconst j ?_) hlast (by omega) (by omega)⟩
  rw [scrollBody_k] at hj
  omega

/-- A stopped loop stopped for one of the two documented reasons: the target
count was reached, or five consecutive scrolls saw no height change. -/
theorem scrollLoop_exit_shape (base : String) (target : Nat) (env : ScrollEnv) :
    ∀ (fuel : Nat) (s sf : ScrollState),
      scrollLoop base target env fuel s = some sf →
      target ≤ sf.urls.length ∨ 5 ≤ sf.noNew := by
  intro fuel
  induction fuel with
  | zero => intro s sf h; exact absurd h (by simp [scrollLoop])
  | succ n ih =>
    intro s sf h
    rw [scrollLoop] at h
    by_cases hexit : target ≤ s.urls.length
    · rw [if_pos hexit] at h
      rw [← Option.some_inj.mp h]
      exact Or.inl hexit
    · rw [if_neg hexit] at h
      by_cases hbrk : (scrollBody base env s).2 = true
      · simp only [hbrk, if_pos] at h
        right
        rw [← Option.some_inj.mp h]
        unfold scrollBody at hbrk ⊢
        by_cases hh : env.heights s.k = s.lastHeight
        · rw [if_pos hh] at hbrk ⊢
          simpa using hbrk
        · rw [if_neg hh] at hbrk
          simp at hbrk
      · simp only [hbrk] at h
        simp at h
        exact ih (scrollBody base env s).1 sf h

/-- C3, amended. The collection loop need not terminate on every run (see
the counterexample), but it does terminate on every run in which the page
height eventually stabilizes, and then it stops either with the target count
reached or after five consecutive no-change scrolls; moreover the
consecutive no-change counter resets to zero whenever the height changes and
climbs by one whenever it does not. -/
theorem scroll_termination_amended :
    (∀ (base : String) (target : Nat) (env : ScrollEnv) (K H : Nat),
        (∀ j, K ≤ j → env.heights j = H) →
        ∃ (fuel : Nat) (sf : ScrollState),
          scrollLoop base target env fuel (initScroll env) = some sf ∧
            (target ≤ sf.urls.length ∨ 5 ≤ sf.noNew)) ∧
    (∀ (base : String) (env : ScrollEnv) (s : ScrollState),
        env.heights s.k ≠ s.lastHeight → (scrollBody base env s).1.noNew = 0) ∧
    (∀ (base : String) (env : ScrollEnv) (s : ScrollState),
        env.heights s.k = s.lastHeight →
          (scrollBody base env s).1.noNew = s.noNew + 1) := by
  refine ⟨?_, ?_, ?_⟩
  · intro base target env K H hconst
    have hstops : ∃ fuel,
        (scrollLoop base target env fuel (initScroll env)).isSome = true := by
      apply scrollLoop_stops_of_adv base target env K (initScroll env)
      apply scrollLoop_stops_of_flat base target env H
      intro j hj
      rw [scrollAdv_k] at hj
      exact hconst j (by simpa [initScroll] using hj)
    obtain ⟨fuel, hf⟩ := hstops
    obtain ⟨sf, hsf⟩ := Option.isSome_iff_exists.mp hf
    exact ⟨fuel, sf, hsf,
      scrollLoop_exit_shape base target env fuel (initScroll env) sf hsf⟩
  · intro base env s hh
    unfold scrollBody
    rw [if_neg hh]
  · intro base env s hh
    unfold scrollBody
    rw [if_pos hh]

/-- C3, witness for the amended theorem: on a page of constant height the
loop provably stops, and a concrete changed-height step resets the counter. -/
theorem scroll_termination_amended_witness :
    (∃ (fuel : Nat) (sf : ScrollState),
        scrollLoop CONFIG.base_url CONFIG.target_count quietScrollEnv fuel
            (initScroll quietScrollEnv) = some sf ∧
          (CONFIG.target_count ≤ sf.urls.length ∨ 5 ≤ sf.noNew)) ∧
    (scrollBody CONFIG.base_url divergingScrollEnv
        (initScroll divergingScrollEnv)).1.noNew = 0 :=
  ⟨scroll_termination_amended.1 CONFIG.base_url CONFIG.target_count quietScrollEnv
      0 0 (fun _ _ => rfl),
    scroll_termination_amended.2.1 CONFIG.base_url divergingScrollEnv
      (initScroll divergingScrollEnv) (by decide)⟩

/-! ## Claims C7 and C8: the orchestrator (lines 242-299) -/

/-- C7. Whenever a run call ends, by normal completion, by user
interruption, or by an unexpected exception, and a driver was created, the
final cleanup step quit the driver. (A run whose collection loop never ends
yields none: it never reaches the finally block, but it also is none of the
three listed endings.) -/
theorem run_guarantees_teardown (cfg : Config) (env : RunEnv) (r : RunResult)
    (hr : run cfg env = some r) (hd : r.driverCreated = true) :
    r.driverQuit = true := by
  unfold run at hr
  by_cases hs : env.setupFails = true
  · rw [if_pos hs] at hr
    rw [← Option.some_inj.mp hr] at hd
    exact absurd hd (by simp)
  · rw [if_neg hs] at hr
    cases hloop : scrollLoop cfg.base_url cfg.target_count env.scroll env.scrollFuel
        (initScroll env.scroll) with
    | none => rw [hloop] at hr; exact Option.noConfusion hr
    | some s =>
      rw [hloop] at hr
      cases habort : env.abort with
      | some abt =>
        rw [habort] at hr
        rw [← Option.some_inj.mp hr]
      | none =>
        rw [habort] at hr
        rw [← Option.some_inj.mp hr]

/-- C7, witness: a concrete normal run creates a driver and quits it. -/
theorem run_guarantees_teardown_witness :
    run CONFIG emptyRunEnv = some emptyRunResult ∧
      emptyRunResult.driverQuit = true :=
  ⟨rfl, run_guarantees_teardown CONFIG emptyRunEnv emptyRunResult rfl rfl⟩

/-- C8. If the collection phase of an uninterrupted run returns the empty
list, the download loop performs zero iterations, leaving the downloaded
count at zero and the failure list empty, and the merge phase still runs and
writes the output artifact, which is empty when the download directory holds
no matching file. -/
theorem empty_collection_still_merges (cfg : Config) (env : RunEnv)
    (sf : ScrollState) (r : RunResult)
    (hsetup : env.setupFails = false)
    (habort : env.abort = none)
    (hloop : scrollLoop cfg.base_url cfg.target_count env.scroll env.scrollFuel
        (initScroll env.scroll) = some sf)
    (hempty : sf.urls = [])
    (hr : run cfg env = some r) :
    r.st.downloaded_count = 0 ∧ r.st.failed_downloads = [] ∧
      r.mergedOutput = some (merge_json_files env.dirFiles) ∧
      (env.dirFiles = [] → r.mergedOutput = some []) := by
  unfold run at hr
  rw [if_neg (by rw [hsetup]; simp), hloop, habort] at hr
  dsimp only at hr
  rw [hempty] at hr
  rw [← Option.some_inj.mp hr]
  refine ⟨rfl, rfl, rfl, ?_⟩
  intro hdir
  rw [hdir]
  rfl

/-- C8, witness: a concrete run collecting no URL still merges, producing
the empty output. -/
theorem empty_collection_still_merges_witness :
    emptyRunResult.st.downloaded_count = 0 ∧
      emptyRunResult.st.failed_downloads = [] ∧
      emptyRunResult.mergedOutput = some (merge_json_files emptyRunEnv.dirFiles) ∧
      (emptyRunEnv.dirFiles = [] → emptyRunResult.mergedOutput = some []) :=
  empty_collection_still_merges CONFIG emptyRunEnv ⟨[], 0, 5, 5⟩ emptyRunResult
    rfl rfl (by decide) rfl rfl

end WorkflowScraper
